import Mathlib

/-!
Verification of the proxystore peer-to-peer endpoint fabric against its
natural-language specification.

The development shallowly embeds the relevant source files:

* `proxystore/p2p/server.py` — the signaling server (`SignalingServer.register`,
  `SignalingServer.unregister`, `SignalingServer.connect`,
  `SignalingServer.handler`) and the module-level client `connect` function.
* `proxystore/connectors/endpoint.py` — the `EndpointConnector`
  (`put`/`get`/`exists`/`evict`) over the endpoint-side object store.
* `proxystore/store/remote.py` — `RemoteStore.get` and `RemoteStore.is_cached`
  with the cache-freshness (`strict`) logic.

Websocket transports are modelled by opaque `Nat` handles, UUIDs by `Nat`,
and the effects of an operation (frames sent, sockets closed) are returned
as an explicit list of `Action`s.  Python `dict`s are modelled as
`Nat → Option Client` maps.
-/

namespace Proxystore

/-- A registered client, from `proxystore/p2p/server.py` (`@dataclass Client`):
fields `name`, `uuid`, `websocket`. -/
structure Client where
  name : String
  uuid : Nat
  websocket : Nat
deriving DecidableEq

/-- `PeerRegistrationRequest{uuid?, name}` from `proxystore/p2p/messages`
(shape as used by `server.py`: `request.uuid` may be `None`, `request.name`). -/
structure PeerRegistrationRequest where
  uuid : Option Nat
  name : String
deriving DecidableEq

/-- Error payload carried in a `PeerConnectionMessage.error` field.  The
server only ever sets `PeerUnknownError(message)`. -/
inductive MessageError
  | peerUnknown (message : String)
deriving DecidableEq

/-- `PeerConnectionMessage{source_uuid, source_name, peer_uuid, description?, error?}`. -/
structure PeerConnectionMessage where
  source_uuid : Nat
  source_name : String
  peer_uuid : Nat
  description : Option String
  error : Option MessageError
deriving DecidableEq

/-- Messages the signaling server sends to clients. -/
inductive OutMessage
  | registrationResponse (uuid : Nat)
  | connectionMessage (msg : PeerConnectionMessage)
  | serverError (message : String)
deriving DecidableEq

/-- Observable effects of a server operation: sending a frame on a websocket,
closing a websocket with a close code, or raising a `KeyError` (the Python
`self._websocket_to_client[websocket]` lookup failing). -/
inductive Action
  | sendMsg (websocket : Nat) (message : OutMessage)
  | closeWs (websocket : Nat) (code : Nat)
  | keyError
deriving DecidableEq

/-- The signaling server state: the two registry indices
`self._websocket_to_client` and `self._uuid_to_client`, each a Python dict
modelled as a partial map. -/
structure ServerState where
  websocket_to_client : Nat → Option Client
  uuid_to_client : Nat → Option Client

/-- `SignalingServer.__init__`: both dicts start empty. -/
def initialState : ServerState :=
  ServerState.mk (fun _ => none) (fun _ => none)

/-- Point update of a partial map (Python `d[k] = v` / `d.pop(k)`). -/
def upd (f : Nat → Option Client) (k : Nat) (v : Option Client) : Nat → Option Client :=
  fun x => if x = k then v else f x

/-- Strings used by the server (`server.py`). -/
def errNotRegistered : String := "client has not registered yet"

def errUnknownType : String := "unknown request type"

def peerUnknownText (u : Nat) : String := "peer " ++ toString u ++ " is unknown"

/-- `SignalingServer.unregister(websocket, expected)`:
pop the websocket from `_websocket_to_client`; if absent, return; otherwise
pop the client's uuid from `_uuid_to_client` and close the client's websocket
with code 1000 (expected) or 1001 (unexpected). -/
def unregister (s : ServerState) (ws : Nat) (expected : Bool) : ServerState × List Action :=
  match s.websocket_to_client ws with
  | none => (s, [])
  | some client =>
      (ServerState.mk (upd s.websocket_to_client ws none)
                      (upd s.uuid_to_client client.uuid none),
       [Action.closeWs client.websocket (if expected then 1000 else 1001)])

/-- `uuid_ = uuid4() if request.uuid is None else request.uuid`; the fresh
draw of `uuid4()` is supplied as the parameter `fresh`. -/
def resolveUuid (req : PeerRegistrationRequest) (fresh : Nat) : Nat :=
  match req.uuid with
  | none => fresh
  | some u => u

/-- The `if uuid_ in self._uuid_to_client: await self.unregister(...)` block
of `SignalingServer.register`, executed when the websocket is new. -/
def registerPrior (s : ServerState) (u : Nat) : ServerState × List Action :=
  match s.uuid_to_client u with
  | some old => unregister s old.websocket false
  | none => (s, [])

/-- `SignalingServer.register(websocket, request)`:
if the websocket is already registered, reply with the existing client's
uuid and change nothing; otherwise, after possibly unregistering an old
transport bound to the same uuid, bind a new `Client` in both indices and
reply with `PeerRegistrationResponse(uuid=client.uuid)`. -/
def register (s : ServerState) (ws : Nat) (req : PeerRegistrationRequest) (fresh : Nat) :
    ServerState × List Action :=
  match s.websocket_to_client ws with
  | some client => (s, [Action.sendMsg ws (OutMessage.registrationResponse client.uuid)])
  | none =>
      (ServerState.mk
         (upd (registerPrior s (resolveUuid req fresh)).1.websocket_to_client ws
              (some (Client.mk req.name (resolveUuid req fresh) ws)))
         (upd (registerPrior s (resolveUuid req fresh)).1.uuid_to_client (resolveUuid req fresh)
              (some (Client.mk req.name (resolveUuid req fresh) ws))),
       (registerPrior s (resolveUuid req fresh)).2 ++
         [Action.sendMsg ws (OutMessage.registrationResponse (resolveUuid req fresh))])

/-- `SignalingServer.connect(websocket, message)`:
look the sender up by websocket (a `KeyError` if absent — the handler only
calls this for registered sockets); if `message.peer_uuid` is unknown, send
the sender a `PeerConnectionMessage` with `error = PeerUnknownError(...)`;
otherwise forward `message` unmodified on the target client's websocket. -/
def connectClient (s : ServerState) (ws : Nat) (msg : PeerConnectionMessage) :
    ServerState × List Action :=
  match s.websocket_to_client ws with
  | none => (s, [Action.keyError])
  | some client =>
      match s.uuid_to_client msg.peer_uuid with
      | none =>
          (s, [Action.sendMsg ws (OutMessage.connectionMessage
                 (PeerConnectionMessage.mk client.uuid client.name msg.peer_uuid none
                   (some (MessageError.peerUnknown (peerUnknownText msg.peer_uuid)))))])
      | some peer_client =>
          (s, [Action.sendMsg peer_client.websocket (OutMessage.connectionMessage msg)])

/-- One iteration of the `SignalingServer.handler` receive loop, classified
by what `deserialize(await websocket.recv())` produced:
a decoded `PeerRegistrationRequest` or `PeerConnectionMessage`, a decoded
message of any other type, an undecodable frame (`SerializationError`), or
a closed connection (clean / error). -/
inductive Frame
  | registrationRequest (req : PeerRegistrationRequest)
  | connectionMessage (msg : PeerConnectionMessage)
  | unknownType
  | undecodable
  | closedOk
  | closedError
deriving DecidableEq

/-- `SignalingServer.handler`, one received frame: dispatch exactly as in the
source.  `fresh` supplies the `uuid4()` draw used if the frame is a
registration request without a uuid. -/
def handleFrame (s : ServerState) (ws : Nat) (fresh : Nat) : Frame → ServerState × List Action
  | Frame.registrationRequest req => register s ws req fresh
  | Frame.connectionMessage msg =>
      match s.websocket_to_client ws with
      | some _ => connectClient s ws msg
      | none => (s, [Action.sendMsg ws (OutMessage.serverError errNotRegistered)])
  | Frame.unknownType => (s, [Action.sendMsg ws (OutMessage.serverError errUnknownType)])
  | Frame.undecodable => (s, [])
  | Frame.closedOk => unregister s ws true
  | Frame.closedError => unregister s ws false

/-- Server states reachable from the initial state by any sequence of handled
frames (each frame handling covers `register`, `unregister`, and `connect`). -/
inductive Reachable : ServerState → Prop
  | init : Reachable initialState
  | step (s : ServerState) (ws fresh : Nat) (f : Frame) :
      Reachable s → Reachable (handleFrame s ws fresh f).1

/-- The two registry indices are consistent: every client registered under a
websocket is registered under its uuid with the same data, and conversely. -/
def Consistent (s : ServerState) : Prop :=
  (∀ ws c, s.websocket_to_client ws = some c →
      c.websocket = ws ∧ s.uuid_to_client c.uuid = some c) ∧
  (∀ u c, s.uuid_to_client u = some c →
      c.uuid = u ∧ s.websocket_to_client c.websocket = some c)

/-! ## Endpoint connector (`proxystore/connectors/endpoint.py`)

`EndpointConnector.put/get/exists/evict` issue HTTP requests through
`proxystore.endpoint.client` to the endpoint process's object store; that
client module and the endpoint store are code of this repository that is
not under `src/`. -/

/-- Serialized payloads are opaque byte strings. -/
abbrev Bytes := List Nat

/-- `EndpointKey(object_id, endpoint_id)` from `proxystore/connectors/endpoint.py`.
Object ids (`str(uuid.uuid4())` in the source) are modelled as `Nat`. -/
structure EndpointKey where
  object_id : Nat
  endpoint_id : Option String
deriving DecidableEq

/-- Modelled from the spec: the endpoint-side object store reached through
`proxystore.endpoint.client` (not under `src/`).  Per spec §3, "The local
store is a mapping object-id → bytes"; `next_id` models the supply of
freshly minted object ids (`str(uuid.uuid4())` in `EndpointConnector.put`)
as a strictly increasing counter, so each draw is new. -/
structure ConnectorState where
  store : Nat → Option Bytes
  next_id : Nat

def initConnector : ConnectorState := ConnectorState.mk (fun _ => none) 0

/-- `EndpointConnector.put(obj)`: mint a fresh key with
`object_id = str(uuid.uuid4())` and `endpoint_id = str(self.endpoint_uuid)`,
store the object under it via `client.put`, and return the key. -/
def EndpointConnector.put (local_uuid : String) (c : ConnectorState) (obj : Bytes) :
    EndpointKey × ConnectorState :=
  (EndpointKey.mk c.next_id (some local_uuid),
   ConnectorState.mk (fun oid => if oid = c.next_id then some obj else c.store oid)
                     (c.next_id + 1))

/-- `EndpointConnector.get(key)`: the stored bytes, or `None` (NOT_FOUND)
if the object does not exist (`client.get`). -/
def EndpointConnector.get (c : ConnectorState) (k : EndpointKey) : Option Bytes :=
  c.store k.object_id

/-- `EndpointConnector.exists(key)` (`client.exists`). -/
def EndpointConnector.exists_ (c : ConnectorState) (k : EndpointKey) : Bool :=
  (c.store k.object_id).isSome

/-- `EndpointConnector.evict(key)` (`client.evict`); evicting an absent key
succeeds without side effects. -/
def EndpointConnector.evict (c : ConnectorState) (k : EndpointKey) : ConnectorState :=
  ConnectorState.mk (fun oid => if oid = k.object_id then none else c.store oid) c.next_id

/-- A sequence of connector operations (gets do not change the store). -/
inductive StoreOp
  | putOp (obj : Bytes)
  | evictOp (k : EndpointKey)
  | getOp (k : EndpointKey)
deriving DecidableEq

/-- Run a sequence of connector operations, threading the store state. -/
def applyOps (local_uuid : String) : List StoreOp → ConnectorState → ConnectorState
  | [], c => c
  | StoreOp.putOp obj :: ops, c =>
      applyOps local_uuid ops (EndpointConnector.put local_uuid c obj).2
  | StoreOp.evictOp k :: ops, c =>
      applyOps local_uuid ops (EndpointConnector.evict c k)
  | StoreOp.getOp _ :: ops, c => applyOps local_uuid ops c

/-- The keys returned by the `put`s of a run, in order. -/
def runKeys (local_uuid : String) : List StoreOp → ConnectorState → List EndpointKey
  | [], _ => []
  | StoreOp.putOp obj :: ops, c =>
      (EndpointConnector.put local_uuid c obj).1 ::
        runKeys local_uuid ops (EndpointConnector.put local_uuid c obj).2
  | StoreOp.evictOp k :: ops, c => runKeys local_uuid ops (EndpointConnector.evict c k)
  | StoreOp.getOp _ :: ops, c => runKeys local_uuid ops c

/-! ## Remote store with cache (`proxystore/store/remote.py`)

`RemoteStore.get` / `RemoteStore.is_cached`.  The abstract backing store
(`get_bytes`, implemented by subclasses outside `src/`) is a partial map
`String → Option Bytes`; the `LRUCache` (code of this repository not under
`src/`) is modelled from the spec.  Timestamps (`float(...decode())` in the
source, `str(time.time())` on write) are modelled as `Nat` through an
abstract decoding function `decodeTs`; only their ordering matters here.
`deserializeFn` models `ps.serialize.deserialize`.  A result of `none`
models a raised exception. -/

/-- Modelled from the spec: the local cache (`proxystore/store/cache.py`,
not under `src/`).  Per spec §9, "model the cache as a mapping
object_id → (timestamp, bytes)"; `RemoteStore.__init__` sets `_cache` to
`None` when the cache size is 0, so the cache slot is optional. -/
structure RemoteState where
  remote : String → Option Bytes
  cache : Option (String → Option (Nat × Bytes))

/-- The `'_timestamp'` sidecar-key suffix. -/
def tsSuffix : String := "_timestamp"

/-- `RemoteStore.is_cached(key, strict)`: `False` when the cache is disabled
or misses; on a hit with `strict`, fetch the store-side sidecar
`key + '_timestamp'` and compare (`cache_timestamp >= store_timestamp`);
`none` models the exception raised when the sidecar is absent
(`None.decode()`). -/
def RemoteStore.is_cached (decodeTs : Bytes → Nat) (s : RemoteState) (key : String)
    (strict : Bool) : Option Bool :=
  match s.cache with
  | none => some false
  | some cache =>
      match cache key with
      | none => some false
      | some entry =>
          if strict then
            match s.remote (key ++ tsSuffix) with
            | none => none
            | some tsb => some (decide (decodeTs tsb ≤ entry.1))
          else some true

/-- `RemoteStore.get(key, deserialize, strict, default)`: serve from the
cache when `is_cached`; otherwise `get_bytes(key)`, decode the
`key + '_timestamp'` sidecar, optionally deserialize, refresh the cache,
and return the value, or `default` when the key is absent.  The result also
carries the post-call state (the cache may be refreshed); `none` models a
raised exception. -/
def RemoteStore.get (decodeTs : Bytes → Nat) (deserializeFn : Bytes → Bytes)
    (s : RemoteState) (key : String) (deserialize : Bool) (strict : Bool)
    (dflt : Option Bytes) : Option (Option Bytes × RemoteState) :=
  match RemoteStore.is_cached decodeTs s key strict with
  | none => none
  | some true =>
      match s.cache with
      | none => none
      | some cache =>
          match cache key with
          | none => none
          | some entry => some (some entry.2, s)
  | some false =>
      match s.remote key with
      | none => some (dflt, s)
      | some value =>
          match s.remote (key ++ tsSuffix) with
          | none => none
          | some tsb =>
              match s.cache with
              | none =>
                  some (some (if deserialize then deserializeFn value else value), s)
              | some cache =>
                  some (some (if deserialize then deserializeFn value else value),
                        RemoteState.mk s.remote
                          (some (fun k =>
                            if k = key
                            then some (decodeTs tsb,
                                       if deserialize then deserializeFn value else value)
                            else cache k)))

/-! ## Signaling client `connect` (`proxystore/p2p/server.py`, module level) -/

/-- What `deserialize(await asyncio.wait_for(websocket.recv(), timeout))`
produced in the client `connect` function: the connection closed first, the
timeout expired, a `PeerRegistrationResponse{uuid, error?}`, or a message of
some other type (its type name recorded for the error text). -/
inductive ClientRecvOutcome
  | closed
  | timedOut
  | response (uuid : Nat) (error : Option String)
  | otherMessage (typeName : String)
deriving DecidableEq

/-- The result of the client `connect` function: the `(uuid, name, websocket)`
tuple on success, or a raised `PeerRegistrationError(message)`. -/
inductive ConnectResult
  | ok (uuid : Nat) (name : String) (websocket : Nat)
  | registrationError (message : String)
deriving DecidableEq

/-- Error strings raised by the client `connect` function. -/
def errClosedBeforeRegistration : String :=
  "Connection to signaling server closed before peer registration completed."

def errRegistrationTimeout : String :=
  "Signaling server did not reply to registration within timeout."

def errRegistrationRefused (e : String) : String :=
  "Failed to register as peer with signaling server. Got exception: " ++ e

def errUnknownReplyType (t : String) : String :=
  "Signaling server replied with unknown message type: " ++ t ++ "."

/-- `connect(address, uuid, name, timeout)` after the transport is open and
the registration request has been sent: `hostname` models `gethostname()`
(used when `name` is `None`), `websocket` the open transport handle, and
`outcome` what the awaited receive produced. -/
def clientConnect (hostname : String) (uuid : Option Nat) (name : Option String)
    (websocket : Nat) (outcome : ClientRecvOutcome) : ConnectResult :=
  match outcome with
  | ClientRecvOutcome.closed => ConnectResult.registrationError errClosedBeforeRegistration
  | ClientRecvOutcome.timedOut => ConnectResult.registrationError errRegistrationTimeout
  | ClientRecvOutcome.response u err =>
      match err with
      | some e => ConnectResult.registrationError (errRegistrationRefused e)
      | none => ConnectResult.ok u (name.getD hostname) websocket
  | ClientRecvOutcome.otherMessage t =>
      ConnectResult.registrationError (errUnknownReplyType t)

/-! ## Concrete states used to instantiate the theorems -/

/-- A concrete registered client: name "alice", uuid 9, websocket 2. -/
def demoClient : Client := Client.mk "alice" 9 2

/-- A server state with exactly `demoClient` registered. -/
def demoState : ServerState :=
  ServerState.mk (fun w => if w = 2 then some demoClient else none)
                 (fun u => if u = 9 then some demoClient else none)

/-- A second concrete client: name "bob", uuid 5, websocket 3. -/
def demoPeer : Client := Client.mk "bob" 5 3

/-- A server state with `demoClient` and `demoPeer` registered. -/
def demoState2 : ServerState :=
  ServerState.mk
    (fun w => if w = 2 then some demoClient else if w = 3 then some demoPeer else none)
    (fun u => if u = 9 then some demoClient else if u = 5 then some demoPeer else none)

/-- A concrete peer-connection message from `demoClient` to `demoPeer`. -/
def demoMsg : PeerConnectionMessage :=
  PeerConnectionMessage.mk 9 "alice" 5 (some "offer-sdp") none

/-- A remote-store state with value `[7]` under "k", sidecar timestamp bytes
`[9]` under "k_timestamp", and a cache holding (5, [3]) for "k". -/
def demoRemote : RemoteState :=
  RemoteState.mk
    (fun k => if k = "k" then some [7]
              else if k = "k_timestamp" then some [9] else none)
    (some (fun k => if k = "k" then some (5, [3]) else none))

/-- A cache-less remote-store state whose value under "k" has no
"_timestamp" sidecar. -/
def demoRemoteNoTs : RemoteState :=
  RemoteState.mk (fun k => if k = "k" then some [7] else none) none

/-! ## Lemmas and claim theorems -/

lemma upd_self (f : Nat → Option Client) (k : Nat) (v : Option Client) : upd f k v k = v := by
  simp [upd]

lemma upd_other (f : Nat → Option Client) (k k' : Nat) (v : Option Client) (h : k' ≠ k) :
    upd f k v k' = f k' := by
  simp [upd, h]

lemma unregister_of_none (s : ServerState) (ws : Nat) (e : Bool)
    (hm : s.websocket_to_client ws = none) : unregister s ws e = (s, []) := by
  simp [unregister, hm]

lemma unregister_of_some (s : ServerState) (ws : Nat) (e : Bool) (client : Client)
    (hm : s.websocket_to_client ws = some client) :
    unregister s ws e =
      (ServerState.mk (upd s.websocket_to_client ws none)
                      (upd s.uuid_to_client client.uuid none),
       [Action.closeWs client.websocket (if e then 1000 else 1001)]) := by
  simp [unregister, hm]

lemma registerPrior_of_none (s : ServerState) (u : Nat)
    (hu : s.uuid_to_client u = none) : registerPrior s u = (s, []) := by
  simp [registerPrior, hu]

lemma registerPrior_of_some (s : ServerState) (u : Nat) (old : Client)
    (hu : s.uuid_to_client u = some old) :
    registerPrior s u = unregister s old.websocket false := by
  simp [registerPrior, hu]

lemma register_of_registered (s : ServerState) (ws : Nat) (req : PeerRegistrationRequest)
    (fresh : Nat) (client : Client) (hm : s.websocket_to_client ws = some client) :
    register s ws req fresh =
      (s, [Action.sendMsg ws (OutMessage.registrationResponse client.uuid)]) := by
  simp [register, hm]

lemma register_of_new (s : ServerState) (ws : Nat) (req : PeerRegistrationRequest)
    (fresh : Nat) (hm : s.websocket_to_client ws = none) :
    register s ws req fresh =
      (ServerState.mk
         (upd (registerPrior s (resolveUuid req fresh)).1.websocket_to_client ws
              (some (Client.mk req.name (resolveUuid req fresh) ws)))
         (upd (registerPrior s (resolveUuid req fresh)).1.uuid_to_client (resolveUuid req fresh)
              (some (Client.mk req.name (resolveUuid req fresh) ws))),
       (registerPrior s (resolveUuid req fresh)).2 ++
         [Action.sendMsg ws (OutMessage.registrationResponse (resolveUuid req fresh))]) := by
  simp [register, hm]

lemma connectClient_of_unknown_peer (s : ServerState) (ws : Nat)
    (msg : PeerConnectionMessage) (client : Client)
    (hm : s.websocket_to_client ws = some client)
    (hp : s.uuid_to_client msg.peer_uuid = none) :
    connectClient s ws msg =
      (s, [Action.sendMsg ws (OutMessage.connectionMessage
             (PeerConnectionMessage.mk client.uuid client.name msg.peer_uuid none
               (some (MessageError.peerUnknown (peerUnknownText msg.peer_uuid)))))]) := by
  simp [connectClient, hm, hp]

lemma connectClient_of_known_peer (s : ServerState) (ws : Nat)
    (msg : PeerConnectionMessage) (client peer_client : Client)
    (hm : s.websocket_to_client ws = some client)
    (hp : s.uuid_to_client msg.peer_uuid = some peer_client) :
    connectClient s ws msg =
      (s, [Action.sendMsg peer_client.websocket (OutMessage.connectionMessage msg)]) := by
  simp [connectClient, hm, hp]

lemma handleFrame_connection_registered (s : ServerState) (ws fresh : Nat)
    (msg : PeerConnectionMessage) (client : Client)
    (hm : s.websocket_to_client ws = some client) :
    handleFrame s ws fresh (Frame.connectionMessage msg) = connectClient s ws msg := by
  simp [handleFrame, hm]

lemma handleFrame_connection_unregistered (s : ServerState) (ws fresh : Nat)
    (msg : PeerConnectionMessage) (hm : s.websocket_to_client ws = none) :
    handleFrame s ws fresh (Frame.connectionMessage msg) =
      (s, [Action.sendMsg ws (OutMessage.serverError errNotRegistered)]) := by
  simp [handleFrame, hm]

lemma pop_preserves (s : ServerState) (ws : Nat) (client : Client)
    (hm : s.websocket_to_client ws = some client) (h : Consistent s) :
    Consistent (ServerState.mk (upd s.websocket_to_client ws none)
                               (upd s.uuid_to_client client.uuid none)) := by
  obtain ⟨A, B⟩ := h
  obtain ⟨hcw, hcu⟩ := A ws client hm
  constructor
  · intro ws' c' h'
    dsimp only at h' ⊢
    by_cases hws' : ws' = ws
    · subst hws'
      rw [upd_self] at h'
      exact absurd h' (by simp)
    · rw [upd_other _ _ _ _ hws'] at h'
      obtain ⟨h1, h2⟩ := A ws' c' h'
      refine ⟨h1, ?_⟩
      by_cases hcu' : c'.uuid = client.uuid
      · rw [hcu', hcu] at h2
        have hc' : c' = client := (Option.some.inj h2).symm
        rw [hc', hcw] at h1
        exact absurd h1.symm hws'
      · rw [upd_other _ _ _ _ hcu']
        exact h2
  · intro u c' h'
    dsimp only at h' ⊢
    by_cases hu : u = client.uuid
    · subst hu
      rw [upd_self] at h'
      exact absurd h' (by simp)
    · rw [upd_other _ _ _ _ hu] at h'
      obtain ⟨h1, h2⟩ := B u c' h'
      refine ⟨h1, ?_⟩
      by_cases hw' : c'.websocket = ws
      · rw [hw', hm] at h2
        have hc' : c' = client := (Option.some.inj h2).symm
        rw [hc'] at h1
        exact absurd h1.symm hu
      · rw [upd_other _ _ _ _ hw']
        exact h2

lemma unregister_preserves (s : ServerState) (ws : Nat) (e : Bool) (h : Consistent s) :
    Consistent (unregister s ws e).1 := by
  cases hm : s.websocket_to_client ws with
  | none =>
      rw [unregister_of_none s ws e hm]
      exact h
  | some client =>
      rw [unregister_of_some s ws e client hm]
      exact pop_preserves s ws client hm h

lemma insert_preserves (s : ServerState) (ws u : Nat) (nm : String)
    (h : Consistent s) (hw : s.websocket_to_client ws = none)
    (hu : s.uuid_to_client u = none) :
    Consistent (ServerState.mk (upd s.websocket_to_client ws (some (Client.mk nm u ws)))
                               (upd s.uuid_to_client u (some (Client.mk nm u ws)))) := by
  obtain ⟨A, B⟩ := h
  constructor
  · intro ws' c' h'
    dsimp only at h' ⊢
    by_cases hws' : ws' = ws
    · subst hws'
      rw [upd_self] at h'
      have hc' : Client.mk nm u ws' = c' := Option.some.inj h'
      rw [← hc']
      exact ⟨rfl, upd_self _ _ _⟩
    · rw [upd_other _ _ _ _ hws'] at h'
      obtain ⟨h1, h2⟩ := A ws' c' h'
      refine ⟨h1, ?_⟩
      by_cases hcu' : c'.uuid = u
      · rw [hcu', hu] at h2
        exact absurd h2 (by simp)
      · rw [upd_other _ _ _ _ hcu']
        exact h2
  · intro u' c' h'
    dsimp only at h' ⊢
    by_cases hu' : u' = u
    · subst hu'
      rw [upd_self] at h'
      have hc' : Client.mk nm u' ws = c' := Option.some.inj h'
      rw [← hc']
      exact ⟨rfl, upd_self _ _ _⟩
    · rw [upd_other _ _ _ _ hu'] at h'
      obtain ⟨h1, h2⟩ := B u' c' h'
      refine ⟨h1, ?_⟩
      by_cases hw' : c'.websocket = ws
      · rw [hw', hw] at h2
        exact absurd h2 (by simp)
      · rw [upd_other _ _ _ _ hw']
        exact h2

lemma registerPrior_preserves (s : ServerState) (u : Nat) (h : Consistent s) :
    Consistent (registerPrior s u).1 := by
  cases hu : s.uuid_to_client u with
  | none =>
      rw [registerPrior_of_none s u hu]
      exact h
  | some old =>
      rw [registerPrior_of_some s u old hu]
      exact unregister_preserves s old.websocket false h

lemma registerPrior_ws_none (s : ServerState) (u ws : Nat)
    (hm : s.websocket_to_client ws = none) :
    (registerPrior s u).1.websocket_to_client ws = none := by
  cases hu : s.uuid_to_client u with
  | none =>
      rw [registerPrior_of_none s u hu]
      exact hm
  | some old =>
      rw [registerPrior_of_some s u old hu]
      cases hw : s.websocket_to_client old.websocket with
      | none =>
          rw [unregister_of_none s old.websocket false hw]
          exact hm
      | some c =>
          rw [unregister_of_some s old.websocket false c hw]
          dsimp only
          by_cases hws : ws = old.websocket
          · subst hws
            exact upd_self _ _ _
          · rw [upd_other _ _ _ _ hws]
            exact hm

lemma registerPrior_uuid_none (s : ServerState) (u : Nat) (h : Consistent s) :
    (registerPrior s u).1.uuid_to_client u = none := by
  cases hu : s.uuid_to_client u with
  | none =>
      rw [registerPrior_of_none s u hu]
      exact hu
  | some old =>
      obtain ⟨hou, how⟩ := h.2 u old hu
      rw [registerPrior_of_some s u old hu]
      rw [unregister_of_some s old.websocket false old how]
      dsimp only
      rw [← hou]
      exact upd_self _ _ _

lemma register_preserves (s : ServerState) (ws : Nat) (req : PeerRegistrationRequest)
    (fresh : Nat) (h : Consistent s) : Consistent (register s ws req fresh).1 := by
  cases hm : s.websocket_to_client ws with
  | some client =>
      rw [register_of_registered s ws req fresh client hm]
      exact h
  | none =>
      rw [register_of_new s ws req fresh hm]
      exact insert_preserves (registerPrior s (resolveUuid req fresh)).1 ws
        (resolveUuid req fresh) req.name
        (registerPrior_preserves s (resolveUuid req fresh) h)
        (registerPrior_ws_none s (resolveUuid req fresh) ws hm)
        (registerPrior_uuid_none s (resolveUuid req fresh) h)

lemma connectClient_fst (s : ServerState) (ws : Nat) (msg : PeerConnectionMessage) :
    (connectClient s ws msg).1 = s := by
  unfold connectClient
  cases s.websocket_to_client ws with
  | none => rfl
  | some client =>
      cases s.uuid_to_client msg.peer_uuid with
      | none => rfl
      | some p => rfl

lemma handleFrame_preserves (s : ServerState) (ws fresh : Nat) (f : Frame)
    (h : Consistent s) : Consistent (handleFrame s ws fresh f).1 := by
  cases f with
  | registrationRequest req => exact register_preserves s ws req fresh h
  | connectionMessage msg =>
      cases hm : s.websocket_to_client ws with
      | none =>
          rw [handleFrame_connection_unregistered s ws fresh msg hm]
          exact h
      | some c =>
          rw [handleFrame_connection_registered s ws fresh msg c hm]
          rw [connectClient_fst]
          exact h
  | unknownType => exact h
  | undecodable => exact h
  | closedOk => exact unregister_preserves s ws true h
  | closedError => exact unregister_preserves s ws false h

lemma initialState_consistent : Consistent initialState := by
  constructor
  · intro ws c hc
    exact absurd hc (by simp [initialState])
  · intro u c hc
    exact absurd hc (by simp [initialState])

lemma applyOps_untouched (local_uuid : String) (ops : List StoreOp) (c : ConnectorState)
    (oid : Nat) (hlt : oid < c.next_id)
    (hev : ∀ k', StoreOp.evictOp k' ∈ ops → k'.object_id ≠ oid) :
    (applyOps local_uuid ops c).store oid = c.store oid ∧
      oid < (applyOps local_uuid ops c).next_id := by
  induction ops generalizing c with
  | nil => exact ⟨rfl, hlt⟩
  | cons op ops ih =>
      cases op with
      | putOp obj =>
          have hne : oid ≠ c.next_id := Nat.ne_of_lt hlt
          have hn : oid < (EndpointConnector.put local_uuid c obj).2.next_id := by
            simp [EndpointConnector.put]
            omega
          obtain ⟨e1, e2⟩ := ih (EndpointConnector.put local_uuid c obj).2 hn
            (fun k' hk => hev k' (List.mem_cons_of_mem _ hk))
          refine ⟨?_, e2⟩
          rw [show applyOps local_uuid (StoreOp.putOp obj :: ops) c =
                applyOps local_uuid ops (EndpointConnector.put local_uuid c obj).2 from rfl]
          rw [e1]
          simp [EndpointConnector.put, hne]
      | evictOp k =>
          have hne : oid ≠ k.object_id := Ne.symm (hev k (List.mem_cons_self _ _))
          have hn : oid < (EndpointConnector.evict c k).next_id := hlt
          obtain ⟨e1, e2⟩ := ih (EndpointConnector.evict c k) hn
            (fun k' hk => hev k' (List.mem_cons_of_mem _ hk))
          refine ⟨?_, e2⟩
          rw [show applyOps local_uuid (StoreOp.evictOp k :: ops) c =
                applyOps local_uuid ops (EndpointConnector.evict c k) from rfl]
          rw [e1]
          simp [EndpointConnector.evict, hne]
      | getOp k =>
          exact ih c hlt (fun k' hk => hev k' (List.mem_cons_of_mem _ hk))

lemma runKeys_bound (local_uuid : String) (ops : List StoreOp) (c : ConnectorState) :
    ∀ k ∈ runKeys local_uuid ops c,
      c.next_id ≤ k.object_id ∧ k.endpoint_id = some local_uuid := by
  induction ops generalizing c with
  | nil =>
      intro k hk
      exact absurd hk (by simp [runKeys])
  | cons op ops ih =>
      cases op with
      | putOp obj =>
          intro k hk
          rw [show runKeys local_uuid (StoreOp.putOp obj :: ops) c =
                (EndpointConnector.put local_uuid c obj).1 ::
                  runKeys local_uuid ops (EndpointConnector.put local_uuid c obj).2
              from rfl] at hk
          rcases List.mem_cons.mp hk with hk | hk
          · subst hk
            exact ⟨Nat.le_refl _, rfl⟩
          · obtain ⟨h1, h2⟩ := ih (EndpointConnector.put local_uuid c obj).2 k hk
            refine ⟨?_, h2⟩
            have : c.next_id + 1 ≤ k.object_id := h1
            omega
      | evictOp k' =>
          intro k hk
          exact ih (EndpointConnector.evict c k') k hk
      | getOp k' =>
          intro k hk
          exact ih c k hk

lemma runKeys_increasing (local_uuid : String) (ops : List StoreOp) (c : ConnectorState) :
    List.Pairwise (fun a b => a.object_id < b.object_id) (runKeys local_uuid ops c) := by
  induction ops generalizing c with
  | nil => exact List.Pairwise.nil
  | cons op ops ih =>
      cases op with
      | putOp obj =>
          rw [show runKeys local_uuid (StoreOp.putOp obj :: ops) c =
                (EndpointConnector.put local_uuid c obj).1 ::
                  runKeys local_uuid ops (EndpointConnector.put local_uuid c obj).2
              from rfl]
          refine List.Pairwise.cons ?_ (ih _)
          intro k hk
          have h1 := (runKeys_bound local_uuid ops _ k hk).1
          have h2 : c.next_id + 1 ≤ k.object_id := h1
          show c.next_id < k.object_id
          omega
      | evictOp k' => exact ih (EndpointConnector.evict c k')
      | getOp k' => exact ih c

lemma demoState_consistent : Consistent demoState := by
  constructor
  · intro ws c h
    by_cases hw : ws = 2
    · subst hw
      simp [demoState] at h
      subst h
      exact ⟨rfl, rfl⟩
    · simp [demoState, hw] at h
  · intro u c h
    by_cases hu : u = 9
    · subst hu
      simp [demoState] at h
      subst h
      exact ⟨rfl, rfl⟩
    · simp [demoState, hu] at h

/-! ## The claims -/

/-- Claim C1: for every byte string `b`, a successful `put(b)` returns a key `k`
such that `get(k)` returns `b` and `exists(k)` is true until a matching
`evict(k)` is performed (here: across any further operations that do not
evict `k`), after which `exists(k)` is false and `get(k)` is NOT_FOUND
(a null payload, `none`). -/
theorem c1_put_get_roundtrip (local_uuid : String) (c : ConnectorState) (b : Bytes)
    (ops : List StoreOp)
    (hev : ∀ k', StoreOp.evictOp k' ∈ ops →
        k'.object_id ≠ (EndpointConnector.put local_uuid c b).1.object_id) :
    EndpointConnector.get
        (applyOps local_uuid ops (EndpointConnector.put local_uuid c b).2)
        (EndpointConnector.put local_uuid c b).1 = some b ∧
    EndpointConnector.exists_
        (applyOps local_uuid ops (EndpointConnector.put local_uuid c b).2)
        (EndpointConnector.put local_uuid c b).1 = true ∧
    EndpointConnector.exists_
        (EndpointConnector.evict
          (applyOps local_uuid ops (EndpointConnector.put local_uuid c b).2)
          (EndpointConnector.put local_uuid c b).1)
        (EndpointConnector.put local_uuid c b).1 = false ∧
    EndpointConnector.get
        (EndpointConnector.evict
          (applyOps local_uuid ops (EndpointConnector.put local_uuid c b).2)
          (EndpointConnector.put local_uuid c b).1)
        (EndpointConnector.put local_uuid c b).1 = none := by
  have hlt : c.next_id < (EndpointConnector.put local_uuid c b).2.next_id :=
    Nat.lt_succ_self _
  obtain ⟨e1, e2⟩ := applyOps_untouched local_uuid ops
    (EndpointConnector.put local_uuid c b).2 c.next_id hlt (fun k' hk => hev k' hk)
  have hget : (applyOps local_uuid ops (EndpointConnector.put local_uuid c b).2).store
      c.next_id = some b := by
    rw [e1]
    simp [EndpointConnector.put]
  refine ⟨hget, ?_, ?_, ?_⟩
  · show ((applyOps local_uuid ops (EndpointConnector.put local_uuid c b).2).store
        c.next_id).isSome = true
    rw [hget]
    rfl
  · simp [EndpointConnector.exists_, EndpointConnector.evict]
  · simp [EndpointConnector.get, EndpointConnector.evict]

theorem c1_witness :
    EndpointConnector.get
        (applyOps "e" [] (EndpointConnector.put "e" initConnector [1, 2]).2)
        (EndpointConnector.put "e" initConnector [1, 2]).1 = some [1, 2] ∧
    EndpointConnector.exists_
        (applyOps "e" [] (EndpointConnector.put "e" initConnector [1, 2]).2)
        (EndpointConnector.put "e" initConnector [1, 2]).1 = true ∧
    EndpointConnector.exists_
        (EndpointConnector.evict
          (applyOps "e" [] (EndpointConnector.put "e" initConnector [1, 2]).2)
          (EndpointConnector.put "e" initConnector [1, 2]).1)
        (EndpointConnector.put "e" initConnector [1, 2]).1 = false ∧
    EndpointConnector.get
        (EndpointConnector.evict
          (applyOps "e" [] (EndpointConnector.put "e" initConnector [1, 2]).2)
          (EndpointConnector.put "e" initConnector [1, 2]).1)
        (EndpointConnector.put "e" initConnector [1, 2]).1 = none :=
  c1_put_get_roundtrip "e" initConnector [1, 2] []
    (fun k' hk => absurd hk (List.not_mem_nil _))

/-- Claim C2: a `PeerConnectionMessage` from a registered client is forwarded
verbatim on the target client's transport when `peer_uuid` is registered
(and that forward is the only output); when `peer_uuid` is unknown, the
sender instead receives a `PeerConnectionMessage` with the same `peer_uuid`
and `error = PeerUnknown`, and nothing is forwarded.  The registry is
unchanged either way. -/
theorem c2_forward_or_peer_unknown (s : ServerState) (ws fresh : Nat)
    (msg : PeerConnectionMessage) (client : Client)
    (hreg : s.websocket_to_client ws = some client) :
    (∀ peer_client, s.uuid_to_client msg.peer_uuid = some peer_client →
        handleFrame s ws fresh (Frame.connectionMessage msg) =
          (s, [Action.sendMsg peer_client.websocket (OutMessage.connectionMessage msg)])) ∧
    (s.uuid_to_client msg.peer_uuid = none →
        handleFrame s ws fresh (Frame.connectionMessage msg) =
          (s, [Action.sendMsg ws (OutMessage.connectionMessage
                 (PeerConnectionMessage.mk client.uuid client.name msg.peer_uuid none
                   (some (MessageError.peerUnknown (peerUnknownText msg.peer_uuid)))))])) := by
  constructor
  · intro peer_client hp
    rw [handleFrame_connection_registered s ws fresh msg client hreg]
    exact connectClient_of_known_peer s ws msg client peer_client hreg hp
  · intro hp
    rw [handleFrame_connection_registered s ws fresh msg client hreg]
    exact connectClient_of_unknown_peer s ws msg client hreg hp

theorem c2_witness :
    handleFrame demoState2 2 0 (Frame.connectionMessage demoMsg) =
      (demoState2, [Action.sendMsg 3 (OutMessage.connectionMessage demoMsg)]) :=
  (c2_forward_or_peer_unknown demoState2 2 0 demoMsg demoClient rfl).1 demoPeer rfl

/-- Claim C3 as stated is false: a decodable frame that is neither a
`PeerRegistrationRequest` nor a `PeerConnectionMessage`, received on an
unregistered transport, is answered with `ServerError("unknown request
type")`, not with `ServerError("client has not registered yet")`. -/
theorem c3_counterexample :
    (handleFrame initialState 0 0 Frame.unknownType).2 =
      [Action.sendMsg 0 (OutMessage.serverError errUnknownType)] ∧
    Action.sendMsg 0 (OutMessage.serverError errNotRegistered) ∉
      (handleFrame initialState 0 0 Frame.unknownType).2 := by
  constructor
  · rfl
  · decide

/-- Claim C3 (amended): on a session whose transport is not yet registered, a
`PeerConnectionMessage` frame is answered with `ServerError("client has not
registered yet")`; a decodable frame of any other non-registration type is
answered with `ServerError("unknown request type")` (as it would be after
registration too); an undecodable frame is skipped; in every case the frame
is otherwise ignored and no registry entry is created in either index. -/
theorem c3_amended_pre_registration (s : ServerState) (ws fresh : Nat)
    (msg : PeerConnectionMessage) (hm : s.websocket_to_client ws = none) :
    handleFrame s ws fresh (Frame.connectionMessage msg) =
      (s, [Action.sendMsg ws (OutMessage.serverError errNotRegistered)]) ∧
    handleFrame s ws fresh Frame.unknownType =
      (s, [Action.sendMsg ws (OutMessage.serverError errUnknownType)]) ∧
    handleFrame s ws fresh Frame.undecodable = (s, []) :=
  ⟨handleFrame_connection_unregistered s ws fresh msg hm, rfl, rfl⟩

theorem c3_amended_witness :
    handleFrame initialState 0 0 (Frame.connectionMessage demoMsg) =
      (initialState, [Action.sendMsg 0 (OutMessage.serverError errNotRegistered)]) ∧
    handleFrame initialState 0 0 Frame.unknownType =
      (initialState, [Action.sendMsg 0 (OutMessage.serverError errUnknownType)]) ∧
    handleFrame initialState 0 0 Frame.undecodable = (initialState, []) :=
  c3_amended_pre_registration initialState 0 0 demoMsg rfl

/-- Claim C4: a `PeerRegistrationRequest` on a new transport carrying a UUID
already bound to a different transport first closes the old transport with
the non-clean close code 1001 (reason "unexpected"), then binds the new
transport to that UUID in both indices, and replies on the new transport
with `PeerRegistrationResponse` carrying that existing UUID.  (The
consistency hypothesis holds in every reachable server state — the registry
invariant of claim C5.) -/
theorem c4_reconnect_unregisters_old (s : ServerState) (ws fresh : Nat) (nm : String)
    (u : Nat) (old : Client) (hcons : Consistent s)
    (hws : s.websocket_to_client ws = none)
    (hold : s.uuid_to_client u = some old) :
    (register s ws (PeerRegistrationRequest.mk (some u) nm) fresh).2 =
      [Action.closeWs old.websocket 1001,
       Action.sendMsg ws (OutMessage.registrationResponse u)] ∧
    (register s ws (PeerRegistrationRequest.mk (some u) nm) fresh).1.websocket_to_client
        ws = some (Client.mk nm u ws) ∧
    (register s ws (PeerRegistrationRequest.mk (some u) nm) fresh).1.uuid_to_client
        u = some (Client.mk nm u ws) := by
  obtain ⟨hou, how⟩ := hcons.2 u old hold
  have hres : resolveUuid (PeerRegistrationRequest.mk (some u) nm) fresh = u := rfl
  have hprior : registerPrior s u =
      (ServerState.mk (upd s.websocket_to_client old.websocket none)
                      (upd s.uuid_to_client old.uuid none),
       [Action.closeWs old.websocket 1001]) := by
    rw [registerPrior_of_some s u old hold,
        unregister_of_some s old.websocket false old how]
    rfl
  refine ⟨?_, ?_, ?_⟩
  · rw [register_of_new s ws (PeerRegistrationRequest.mk (some u) nm) fresh hws]
    dsimp only
    rw [hres, hprior]
    rfl
  · rw [register_of_new s ws (PeerRegistrationRequest.mk (some u) nm) fresh hws]
    dsimp only
    exact upd_self _ _ _
  · rw [register_of_new s ws (PeerRegistrationRequest.mk (some u) nm) fresh hws]
    dsimp only
    exact upd_self _ _ _

theorem c4_witness :
    (register demoState 3 (PeerRegistrationRequest.mk (some 9) "bob") 0).2 =
      [Action.closeWs 2 1001, Action.sendMsg 3 (OutMessage.registrationResponse 9)] ∧
    (register demoState 3 (PeerRegistrationRequest.mk (some 9) "bob") 0).1.websocket_to_client
        3 = some (Client.mk "bob" 9 3) ∧
    (register demoState 3 (PeerRegistrationRequest.mk (some 9) "bob") 0).1.uuid_to_client
        9 = some (Client.mk "bob" 9 3) :=
  c4_reconnect_unregisters_old demoState 3 0 "bob" 9 demoClient
    demoState_consistent rfl rfl

/-- Claim C5: in every signaling-server state reachable by any sequence of
handled frames (covering register, unregister, and connect), the
by-transport and by-uuid indices name the same set of registry entries:
every registered client is indexed under its own transport and its own
uuid, consistently in both maps. -/
theorem c5_registry_invariant (s : ServerState) (h : Reachable s) : Consistent s := by
  induction h with
  | init => exact initialState_consistent
  | step s' ws fresh f hr ih => exact handleFrame_preserves s' ws fresh f ih

theorem c5_witness :
    Consistent (handleFrame initialState 1 7
      (Frame.registrationRequest (PeerRegistrationRequest.mk none "a"))).1 :=
  c5_registry_invariant _
    (Reachable.step initialState 1 7
      (Frame.registrationRequest (PeerRegistrationRequest.mk none "a")) Reachable.init)

/-- Claim C6: `connect(address, uuid?, name?, timeout)` returns the identity the
server accepted (with the name used and the transport handle) when the
reply is a `PeerRegistrationResponse` without error, and raises
`PeerRegistrationError` exactly when the transport closed first, the
timeout expired, the reply is of another type, or the reply carries an
error. -/
theorem c6_connect_result (hostname : String) (uuid : Option Nat) (name : Option String)
    (websocket : Nat) (outcome : ClientRecvOutcome) :
    (∀ u, outcome = ClientRecvOutcome.response u none →
        clientConnect hostname uuid name websocket outcome =
          ConnectResult.ok u (name.getD hostname) websocket) ∧
    ((∃ m, clientConnect hostname uuid name websocket outcome =
        ConnectResult.registrationError m) ↔
      (outcome = ClientRecvOutcome.closed ∨ outcome = ClientRecvOutcome.timedOut ∨
       (∃ t, outcome = ClientRecvOutcome.otherMessage t) ∨
       (∃ u e, outcome = ClientRecvOutcome.response u (some e)))) := by
  constructor
  · intro u h
    subst h
    rfl
  · cases outcome with
    | closed => simp [clientConnect]
    | timedOut => simp [clientConnect]
    | response u err =>
        cases err with
        | none => simp [clientConnect]
        | some e => simp [clientConnect]
    | otherMessage t => simp [clientConnect]

theorem c6_witness :
    clientConnect "host" none none 3 (ClientRecvOutcome.response 5 none) =
      ConnectResult.ok 5 "host" 3 :=
  (c6_connect_result "host" none none 3 (ClientRecvOutcome.response 5 none)).1 5 rfl

/-- Claim C7: every key returned by a `put` carries `endpoint_id` equal to the
local endpoint's identity, and its freshly minted `object_id` is distinct
from the `object_id` of every other key returned in the run. -/
theorem c7_keys_fresh_and_local (local_uuid : String) (ops : List StoreOp)
    (c : ConnectorState) :
    (∀ k ∈ runKeys local_uuid ops c, k.endpoint_id = some local_uuid) ∧
    List.Pairwise (fun a b => a.object_id ≠ b.object_id) (runKeys local_uuid ops c) := by
  constructor
  · intro k hk
    exact (runKeys_bound local_uuid ops c k hk).2
  · exact (runKeys_increasing local_uuid ops c).imp (fun h => Nat.ne_of_lt h)

theorem c7_witness :
    (EndpointConnector.put "e" initConnector [1]).1.endpoint_id = some "e" :=
  (c7_keys_fresh_and_local "e" [StoreOp.putOp [1]] initConnector).1
    (EndpointConnector.put "e" initConnector [1]).1 (by simp [runKeys])

/-- Claim C8: with a cache configured and `get(key, strict=True)` on a key present
in the cache (whose "_timestamp" sidecar exists remotely), the cached value
is returned exactly when the cached timestamp is at least the timestamp
fetched by the second remote lookup of `key + "_timestamp"`; otherwise the
value is re-fetched from the remote store (deserialized and re-cached with
the store-side timestamp). -/
theorem c8_strict_cache_freshness (decodeTs : Bytes → Nat) (deserializeFn : Bytes → Bytes)
    (s : RemoteState) (cache : String → Option (Nat × Bytes)) (key : String)
    (cts : Nat) (cval : Bytes) (tsb v : Bytes) (dflt : Option Bytes)
    (hc : s.cache = some cache) (hk : cache key = some (cts, cval))
    (hts : s.remote (key ++ tsSuffix) = some tsb) (hv : s.remote key = some v) :
    (decodeTs tsb ≤ cts →
        RemoteStore.get decodeTs deserializeFn s key true true dflt =
          some (some cval, s)) ∧
    (cts < decodeTs tsb →
        RemoteStore.get decodeTs deserializeFn s key true true dflt =
          some (some (deserializeFn v),
                RemoteState.mk s.remote
                  (some (fun k => if k = key then some (decodeTs tsb, deserializeFn v)
                                  else cache k)))) := by
  constructor
  · intro hle
    have hic : RemoteStore.is_cached decodeTs s key true = some true := by
      simp [RemoteStore.is_cached, hc, hk, hts, hle]
    simp [RemoteStore.get, hic, hc, hk]
  · intro hlt
    have hic : RemoteStore.is_cached decodeTs s key true = some false := by
      simp [RemoteStore.is_cached, hc, hk, hts]
      omega
    simp [RemoteStore.get, hic, hc, hk, hts, hv]

theorem c8_witness :
    RemoteStore.get (fun b => b.length) (fun b => b) demoRemote "k" true true none =
      some (some [3], demoRemote) :=
  (c8_strict_cache_freshness (fun b => b.length) (fun b => b) demoRemote
    (fun k => if k = "k" then some (5, [3]) else none) "k" 5 [3] [9] [7] none
    rfl rfl (by decide) (by decide)).1 (by decide)

/-- Claim C10: `RemoteStore.get` is total only when every stored value has its
"_timestamp" sidecar: on a key not served from the cache whose value exists
remotely but whose sidecar is absent, `get` raises (decoding `None`)
instead of returning the value or the default. -/
theorem c10_missing_sidecar_raises (decodeTs : Bytes → Nat) (deserializeFn : Bytes → Bytes)
    (s : RemoteState) (key : String) (v : Bytes) (deserialize strict : Bool)
    (dflt : Option Bytes)
    (hnc : RemoteStore.is_cached decodeTs s key strict = some false)
    (hv : s.remote key = some v)
    (hts : s.remote (key ++ tsSuffix) = none) :
    RemoteStore.get decodeTs deserializeFn s key deserialize strict dflt = none := by
  simp [RemoteStore.get, hnc, hv, hts]

theorem c10_witness :
    RemoteStore.get (fun b => b.length) (fun b => b) demoRemoteNoTs "k" true false none =
      none :=
  c10_missing_sidecar_raises (fun b => b.length) (fun b => b) demoRemoteNoTs "k" [7]
    true false none rfl (by decide) (by decide)

/-- Claim C9: a second `PeerRegistrationRequest` on an already-registered
transport is answered with the UUID originally bound to that transport —
whatever UUID the new request carries is ignored — and both registry
indices are left unchanged. -/
theorem c9_reregistration_ignored (s : ServerState) (ws fresh : Nat)
    (req : PeerRegistrationRequest) (client : Client)
    (hm : s.websocket_to_client ws = some client) :
    register s ws req fresh =
      (s, [Action.sendMsg ws (OutMessage.registrationResponse client.uuid)]) :=
  register_of_registered s ws req fresh client hm

theorem c9_witness :
    register demoState 2 (PeerRegistrationRequest.mk (some 123) "eve") 0 =
      (demoState, [Action.sendMsg 2 (OutMessage.registrationResponse 9)]) :=
  c9_reregistration_ignored demoState 2 0 (PeerRegistrationRequest.mk (some 123) "eve")
    demoClient rfl

end Proxystore
